import Mathlib

/-!
Verification of the `gocommerce` client library (Squarespace Commerce REST
bindings) against its natural-language specification.

The development shallowly embeds the shared request pipeline of the `common`
package (error-body formatting, user-agent defaulting, query-parameter
validation, base-URL construction) and the per-resource request functions the
claims mention (`products`, `inventory`, `orders`).  Go strings become Lean
`String`s, Go `error` results become `Option String` (with `none` standing for
a `nil` error), nil-able pointers become `Option`, and the injected HTTP
transport becomes an explicit function parameter, so that "no network call is
made" is expressed as independence from the transport.
-/

/-- Argument to the `fmt` verb formatter: Go passes `string` and `int` values
to `fmt.Errorf` / `fmt.Sprintf` in this codebase. -/
inductive FmtArg where
  | str (s : String)
  | int (n : Int)

/-- Character-level model of Go `fmt` formatting restricted to the `%s` and
`%d` verbs, the only verbs this codebase uses (`%w`-wrapped errors are
modelled separately).  A verb consumes the next argument; on an
argument/verb mismatch (never reached by the embedded call sites) the verb
characters are echoed literally. -/
def runFormatAux : List Char → List FmtArg → List Char
  | [], _ => []
  | '%' :: 's' :: rest, FmtArg.str s :: args => s.data ++ runFormatAux rest args
  | '%' :: 'd' :: rest, FmtArg.int n :: args => (toString n).data ++ runFormatAux rest args
  | c :: rest, args => c :: runFormatAux rest args

/-- Model of `fmt.Sprintf` / the message of `fmt.Errorf` for `%s`/`%d`
format strings. -/
def runFormat (fmt : String) (args : List FmtArg) : String :=
  String.mk (runFormatAux fmt.data args)

/-- The structured API error shape decoded from a failure response body
(`common.APIError`; Go field `Type` is rendered `type_` because `Type` is a
Lean keyword). -/
structure APIError where
  type_ : String
  subtype : String
  message : String
  detail : String

/-- Modelled from the spec: the session configuration (`common.Config`).  The
spec lists a credential, a user-agent string, an injected HTTP transport, an
optional idempotency token and an optional base-URL override; the current
struct declaration is not among the sources (older revisions lack `BaseURL`),
but `BuildBaseURL` reads `config.BaseURL` and the inventory/orders clients
read `config.IdempotencyKey`, so both fields are present.  The injected
`*http.Client` is not carried here — the transport is passed to each embedded
request function explicitly — and the `*uuid.UUID` idempotency key is
modelled by its canonical string form. -/
structure Config where
  APIKey : String
  UserAgent : String
  IdempotencyKey : Option String
  BaseURL : String

/-- Modelled from the spec: the query-parameter set (`common.QueryParams`).
The spec lists cursor, free-text filter, modified-after/before timestamps,
sort direction/field, status and a resource-type filter; the current struct
declaration is not among the sources (older revisions lack the type filter),
but `ValidateQueryParams` reads `params.Type`, so the field is present
(rendered `Type_` because `Type` is a Lean keyword). -/
structure QueryParams where
  Cursor : String
  Filter : String
  ModifiedAfter : String
  ModifiedBefore : String
  SortDirection : String
  SortField : String
  Status : String
  Type_ : String

/-- Modelled from the spec: the first of the two enumerated product-type
filter values ("PHYSICAL"); the constant declaration is not among the
sources, only its use in `validateTypeParam`. -/
def ProductTypePhysical : String := "PHYSICAL"

/-- Modelled from the spec: the second enumerated product-type filter value
("DIGITAL"). -/
def ProductTypeDigital : String := "DIGITAL"

/-- `common.SetUserAgent`: default the user-agent string when empty. -/
def SetUserAgent (userAgent : String) : String :=
  if userAgent = "" then "gocommerce/default-client" else userAgent

/-- `common.ParseErrorResponse` (current four-argument form).  The
`json.Unmarshal` decode of the body into `APIError` is abstracted as the
`unmarshal` parameter (`none` models a decode error); the message is built by
incrementally extending a format string and argument list exactly as the Go
code does and then formatting.  The result is `some message`, `none`
modelling a `nil` Go error (which no branch produces). -/
def ParseErrorResponse (unmarshal : String → Option APIError)
    (endpoint url body : String) (statusCode : Int) : Option String :=
  match unmarshal body with
  | none =>
      some (runFormat "%s: error unmarshalling response body: status: %d"
        [.str endpoint, .int statusCode])
  | some apiError =>
      let errorFormat₀ := "%s url: %s: status: %d, type: %s"
      let errorArgs₀ : List FmtArg :=
        [.str endpoint, .str url, .int statusCode, .str apiError.type_]
      let errorFormat₁ :=
        if apiError.subtype ≠ "" then errorFormat₀ ++ ", subtype: %s" else errorFormat₀
      let errorArgs₁ :=
        if apiError.subtype ≠ "" then errorArgs₀ ++ [.str apiError.subtype] else errorArgs₀
      let errorFormat₂ := errorFormat₁ ++ ", message: %s"
      let errorArgs₂ := errorArgs₁ ++ [.str apiError.message]
      let errorFormat₃ :=
        if apiError.detail ≠ "" then errorFormat₂ ++ ", detail: %s" else errorFormat₂
      let errorArgs₃ :=
        if apiError.detail ≠ "" then errorArgs₂ ++ [.str apiError.detail] else errorArgs₂
      some (runFormat errorFormat₃ errorArgs₃)

/-- The older two-argument `common.ParseErrorResponse` still imported by the
orders client (`src/common/util.go`): it echoes the raw body on decode
failure and prints every field unconditionally. -/
def ParseErrorResponseLegacy (unmarshal : String → Option APIError)
    (body : String) (statusCode : Int) : Option String :=
  match unmarshal body with
  | none =>
      some (runFormat "unexpected status code: %d, body: %s" [.int statusCode, .str body])
  | some apiError =>
      some (runFormat "status: %d, type: %s, subtype: %s, message: %s, detail: %s"
        [.int statusCode, .str apiError.type_, .str apiError.subtype,
         .str apiError.message, .str apiError.detail])

/-- `common.BuildBaseURL`: produce the versioned endpoint root, honoring the
test/override base URL; the error component of the Go pair is always `nil`
(`none`). -/
def BuildBaseURL (config : Config) (version path : String) : String × Option String :=
  if config.BaseURL ≠ "" then
    (runFormat "%s/%s/%s" [.str config.BaseURL, .str version, .str path], none)
  else
    (runFormat "https://api.squarespace.com/%s/%s" [.str version, .str path], none)

/-- Numeric value of a (digit) character list, used for the fixed-width
fields of the timestamp model. -/
def digitsToNat (cs : List Char) : Nat :=
  cs.foldl (fun a c => 10 * a + (c.toNat - '0'.toNat)) 0

/-- Gregorian leap-year rule, as applied by Go `time` when validating the
day-of-month. -/
def isLeapYear (y : Nat) : Bool :=
  y % 4 = 0 && (y % 100 ≠ 0 || y % 400 = 0)

/-- Days in a month, as applied by Go `time` when validating the
day-of-month. -/
def daysInMonth (y m : Nat) : Nat :=
  if m = 2 then (if isLeapYear y then 29 else 28)
  else if m = 4 ∨ m = 6 ∨ m = 9 ∨ m = 11 then 30
  else 31

/-- Skip an optional fractional-second part after the seconds field: Go
`time.Parse` consumes a `.` or `,` followed by at least one digit even though
the `RFC3339` layout carries no fractional second. -/
def dropFraction (l : List Char) : List Char :=
  match l with
  | c :: d :: rest =>
      if (c = '.' ∨ c = ',') ∧ d.isDigit then (d :: rest).dropWhile Char.isDigit
      else l
  | _ => l

/-- Validity of the zone suffix of the `RFC3339` layout (`Z07:00`): either a
literal `Z` or a `±hh:mm` numeric offset. -/
def validZone : List Char → Bool
  | ['Z'] => true
  | [sgn, h1, h2, ':', m1, m2] =>
      (sgn = '+' || sgn = '-') && h1.isDigit && h2.isDigit && m1.isDigit && m2.isDigit &&
        digitsToNat [h1, h2] ≤ 23 && digitsToNat [m1, m2] ≤ 59
  | _ => false

/-- Model of whether Go `time.Parse(time.RFC3339, s)` succeeds (layout
`2006-01-02T15:04:05Z07:00`): four-digit year, month 01–12, day valid for the
month, literal `T`, hour 00–23, minute and second 00–59, an optional
fractional second, and a `Z` or `±hh:mm` zone.  Go stdlib behavior, modelled
here because `ValidateQueryParams` delegates to it. -/
def rfc3339Valid (s : String) : Bool :=
  match s.data with
  | y1 :: y2 :: y3 :: y4 :: '-' :: mo1 :: mo2 :: '-' :: d1 :: d2 :: 'T' ::
    h1 :: h2 :: ':' :: mi1 :: mi2 :: ':' :: s1 :: s2 :: rest =>
      y1.isDigit && y2.isDigit && y3.isDigit && y4.isDigit &&
      mo1.isDigit && mo2.isDigit && d1.isDigit && d2.isDigit &&
      h1.isDigit && h2.isDigit && mi1.isDigit && mi2.isDigit &&
      s1.isDigit && s2.isDigit &&
      (let month := digitsToNat [mo1, mo2]
       let day := digitsToNat [d1, d2]
       1 ≤ month && month ≤ 12 &&
       1 ≤ day && day ≤ daysInMonth (digitsToNat [y1, y2, y3, y4]) month &&
       digitsToNat [h1, h2] ≤ 23 && digitsToNat [mi1, mi2] ≤ 59 &&
       digitsToNat [s1, s2] ≤ 59) &&
      validZone (dropFraction rest)
  | _ => false

/-- The two error cases of `common.validateTypeParam`, with the offending
input they report. -/
inductive TypeError where
  | invalidValue (got : String)
  | duplicate (got : String)
deriving DecidableEq

/-- The message text `validateTypeParam` wraps into its `fmt.Errorf` calls. -/
def TypeError.messageText : TypeError → String
  | .invalidValue got =>
      runFormat "type must be either 'PHYSICAL' or 'DIGITAL' (or both comma-separated), got: %s"
        [.str got]
  | .duplicate got => runFormat "duplicate types found in: %s" [.str got]

/-- The error cases of `common.ValidateQueryParams`.  For the two timestamp
cases the Go message wraps the underlying `time.Parse` error with `%w`; the
wrapped stdlib text is not modelled, so `messageText` renders the prefix the
repository writes itself. -/
inductive ValidationError where
  | cursorWithOthers
  | modifiedPairing
  | modifiedAfterInvalid
  | modifiedBeforeInvalid
  | invalidType (e : TypeError)
deriving DecidableEq

/-- The repository-written part of each `ValidateQueryParams` error message. -/
def ValidationError.messageText : ValidationError → String
  | .cursorWithOthers => "cannot use cursor alongside other query parameters"
  | .modifiedPairing => "modifiedAfter and modifiedBefore must both be specified together or not at all"
  | .modifiedAfterInvalid => "modifiedAfter is not a valid ISO 8601 UTC date-time string"
  | .modifiedBeforeInvalid => "modifiedBefore is not a valid ISO 8601 UTC date-time string"
  | .invalidType e => runFormat "invalid type: %s" [.str e.messageText]

/-- Splitting a character list at every occurrence of a separator
character. -/
def splitOnCharAux (c : Char) : List Char → List (List Char)
  | [] => [[]]
  | x :: xs =>
      let r := splitOnCharAux c xs
      if x = c then [] :: r
      else
        match r with
        | [] => [[x]]
        | y :: ys => (x :: y) :: ys

/-- Model of Go `strings.Split` for the single-character separator this
codebase uses: like the Go function, it returns one (possibly empty) piece
per separator occurrence plus one, so the empty string yields one empty
piece. -/
def stringsSplit (s : String) (sep : Char) : List String :=
  (splitOnCharAux sep s.data).map String.mk

/-- Model of Go `strings.TrimSpace`: drop leading and trailing whitespace
(the ASCII whitespace classes; the extra Unicode space classes Go also trims
are not exercised by any source input). -/
def trimSpace (s : String) : String :=
  String.mk (((s.data.dropWhile Char.isWhitespace).reverse.dropWhile Char.isWhitespace).reverse)

/-- `common.validateTypeParam`: split the filter on commas, trim each entry,
reject the first entry that is neither enumerated value (echoing the whole
input, as the Go message does), then reject duplicates by comparing the
number of distinct trimmed entries (the size of the Go `validTypes` map,
modelled by `List.dedup`) with the number of entries. -/
def validateTypeParam (productType : String) : Option TypeError :=
  let types := stringsSplit productType ','
  match types.find? (fun t => trimSpace t != ProductTypePhysical && trimSpace t != ProductTypeDigital) with
  | some _ => some (.invalidValue productType)
  | none =>
      if ((types.map (fun t => trimSpace t)).dedup).length ≠ types.length then
        some (.duplicate productType)
      else none

/-- `common.ValidateQueryParams` (current form from the sources): cursor
exclusivity against the six listed fields, the modified-timestamp pairing and
format rules, then the type filter. -/
def ValidateQueryParams (params : QueryParams) : Option ValidationError :=
  if params.Cursor ≠ "" then
    if params.Filter ≠ "" ∨ params.ModifiedAfter ≠ "" ∨ params.ModifiedBefore ≠ "" ∨
        params.SortDirection ≠ "" ∨ params.SortField ≠ "" ∨ params.Status ≠ "" then
      some .cursorWithOthers
    else none
  else
    if (params.ModifiedAfter ≠ "" ∧ params.ModifiedBefore = "") ∨
        (params.ModifiedAfter = "" ∧ params.ModifiedBefore ≠ "") then
      some .modifiedPairing
    else if params.ModifiedAfter ≠ "" ∧ ¬rfc3339Valid params.ModifiedAfter then
      some .modifiedAfterInvalid
    else if params.ModifiedBefore ≠ "" ∧ ¬rfc3339Valid params.ModifiedBefore then
      some .modifiedBeforeInvalid
    else if params.Type_ ≠ "" then
      match validateTypeParam params.Type_ with
      | some e => some (.invalidType e)
      | none => none
    else none

/-- An outbound HTTP request as assembled by the client functions: method,
URL, ordered header pairs (each set once via `http.Header.Set` on a distinct
canonical name) and the serialized body (empty for GET). -/
structure HttpRequest where
  method : String
  url : String
  headers : List (String × String)
  body : String

/-- The response the injected transport returns: status code and fully
buffered body. -/
structure HttpResponse where
  statusCode : Int
  body : String

/-- `products.ProductsAPIVersion`. -/
def ProductsAPIVersion : String := "1.0"

/-- `inventory.InventoryAPIVersion`. -/
def InventoryAPIVersion : String := "1.0"

/-- `orders.OrdersAPIVersion`. -/
def OrdersAPIVersion : String := "1.0"

/-- `products.RetrieveSpecificProducts`: reject an empty or oversized ID list
before building the URL and invoking the transport; on a non-200 status
delegate to `ParseErrorResponse`.  The Go pair `(*Response, error)` becomes
`Option HttpResponse × Option String`; decoding the success body into the
typed response is not modelled (the success component carries the raw
response). -/
def RetrieveSpecificProducts (transport : HttpRequest → HttpResponse)
    (unmarshal : String → Option APIError) (config : Config)
    (productIDs : List String) : Option HttpResponse × Option String :=
  if productIDs.length = 0 then
    (none, some "at least one product ID is required")
  else if productIDs.length > 50 then
    (none, some "cannot retrieve more than 50 products at once")
  else
    let joinedIDs := String.intercalate "," productIDs
    let baseURL := (BuildBaseURL config ProductsAPIVersion
      (runFormat "commerce/products/%s" [.str joinedIDs])).1
    let resp := transport
      ⟨"GET", baseURL,
       [("Authorization", "Bearer " ++ config.APIKey),
        ("User-Agent", SetUserAgent config.UserAgent)], ""⟩
    if resp.statusCode ≠ 200 then
      (none, ParseErrorResponse unmarshal "RetrieveSpecificProducts" baseURL resp.body resp.statusCode)
    else (some resp, none)

/-- `inventory.RetrieveSpecificInventory` (current form from the sources):
the same local precondition as `RetrieveSpecificProducts` with the
inventory-specific messages; the `net/url` parse/re-render round-trip of the
endpoint, an identity on these URLs, is not modelled. -/
def RetrieveSpecificInventory (transport : HttpRequest → HttpResponse)
    (unmarshal : String → Option APIError) (config : Config)
    (inventoryIDs : List String) : Option HttpResponse × Option String :=
  if inventoryIDs.length = 0 then
    (none, some "no inventory IDs provided")
  else if inventoryIDs.length > 50 then
    (none, some "cannot retrieve more than 50 inventory IDs")
  else
    let idsPath := String.intercalate "," inventoryIDs
    let baseURL := runFormat "https://api.squarespace.com/%s/commerce/inventory"
      [.str InventoryAPIVersion]
    let endpoint := runFormat "%s/%s" [.str baseURL, .str idsPath]
    let resp := transport
      ⟨"GET", endpoint,
       [("Authorization", "Bearer " ++ config.APIKey),
        ("User-Agent", SetUserAgent config.UserAgent)], ""⟩
    if resp.statusCode ≠ 200 then
      (none, ParseErrorResponse unmarshal "RetrieveSpecificInventory" endpoint resp.body resp.statusCode)
    else (some resp, none)

/-- The request `inventory.AdjustStockQuantities` hands to the transport:
POST to the adjustments endpoint with the standard headers and, exactly when
the configuration carries an idempotency key, an `Idempotency-Key` header
holding the key's string form.  The JSON marshalling of the typed request is
not modelled; `reqBody` stands for the marshalled bytes. -/
def AdjustStockQuantitiesHttpRequest (config : Config) (reqBody : String) : HttpRequest :=
  let url := runFormat "https://api.squarespace.com/%s/commerce/inventory/adjustments"
    [.str InventoryAPIVersion]
  let headers :=
    [("Authorization", "Bearer " ++ config.APIKey),
     ("User-Agent", SetUserAgent config.UserAgent),
     ("Content-Type", "application/json")]
  let headers :=
    match config.IdempotencyKey with
    | some k => headers ++ [("Idempotency-Key", k)]
    | none => headers
  ⟨"POST", url, headers, reqBody⟩

/-- `inventory.AdjustStockQuantities`: success is exactly status 204
(no-content); every other status is handed to `ParseErrorResponse`. -/
def AdjustStockQuantities (transport : HttpRequest → HttpResponse)
    (unmarshal : String → Option APIError) (config : Config)
    (reqBody : String) : Int × Option String :=
  let req := AdjustStockQuantitiesHttpRequest config reqBody
  let resp := transport req
  if resp.statusCode = 204 then (204, none)
  else
    (resp.statusCode,
     ParseErrorResponse unmarshal "AdjustStockQuantities" req.url resp.body resp.statusCode)

/-- The request `orders.CreateOrder` hands to the transport: POST to the
orders endpoint with the standard headers and the conditional
`Idempotency-Key` header, mirroring `AdjustStockQuantitiesHttpRequest`. -/
def CreateOrderHttpRequest (config : Config) (reqBody : String) : HttpRequest :=
  let url := runFormat "https://api.squarespace.com/%s/commerce/orders"
    [.str OrdersAPIVersion]
  let headers :=
    [("Authorization", "Bearer " ++ config.APIKey),
     ("User-Agent", SetUserAgent config.UserAgent),
     ("Content-Type", "application/json")]
  let headers :=
    match config.IdempotencyKey with
    | some k => headers ++ [("Idempotency-Key", k)]
    | none => headers
  ⟨"POST", url, headers, reqBody⟩

/-- `orders.CreateOrder`: success is exactly status 201; other statuses go
through the legacy two-argument error parser this client imports.  Decoding
the success body into the typed `Order` is not modelled. -/
def CreateOrder (transport : HttpRequest → HttpResponse)
    (unmarshal : String → Option APIError) (config : Config)
    (reqBody : String) : Option HttpResponse × Option String :=
  let req := CreateOrderHttpRequest config reqBody
  let resp := transport req
  if resp.statusCode ≠ 201 then
    (none, ParseErrorResponseLegacy unmarshal resp.body resp.statusCode)
  else (some resp, none)

/-- `products.ReorderProductImageRequest`: `ProductID` and `ImageID` carry
the JSON tag `-` (never serialized); `AfterImageID` is a `*string` carrying
the tag `afterImageId,omitempty`. -/
structure ReorderProductImageRequest where
  ProductID : String
  ImageID : String
  AfterImageID : Option String

/-- JSON string quoting as `encoding/json` performs it; only the quote and
backslash escapes are modelled (no input in the sources needs control or
HTML escaping). -/
def jsonQuote (s : String) : String :=
  "\"" ++ String.mk (s.data.foldr (fun c acc =>
    if c = '"' ∨ c = '\\' then '\\' :: c :: acc else c :: acc) []) ++ "\""

/-- What `json.Marshal` produces for a `ReorderProductImageRequest` given its
struct tags: the two `-`-tagged fields are always skipped, and `omitempty` on
the `AfterImageID` pointer makes `encoding/json` drop the field entirely when
the pointer is nil, rather than writing an explicit `null`. -/
def reorderProductImageRequestJSON (r : ReorderProductImageRequest) : String :=
  match r.AfterImageID with
  | none => "\x7b\x7d"
  | some v => "\x7b\"afterImageId\":" ++ jsonQuote v ++ "\x7d"

theorem string_eq_of_data {a b : String} (h : a.data = b.data) : a = b := by
  cases a; cases b; exact congrArg String.mk h

theorem data_append (a b : String) : (a ++ b).data = a.data ++ b.data := rfl

theorem string_append_assoc (a b c : String) : (a ++ b) ++ c = a ++ (b ++ c) :=
  string_eq_of_data (by simp [data_append])

theorem string_append_empty (s : String) : s ++ "" = s :=
  string_eq_of_data (by simp [data_append])

/-- Claim C9: `SetUserAgent` returns the fixed default string
"gocommerce/default-client" when the input is empty, and returns the input
unchanged when it is non-empty. -/
theorem setUserAgent_spec (ua : String) :
    (ua = "" → SetUserAgent ua = "gocommerce/default-client") ∧
    (ua ≠ "" → SetUserAgent ua = ua) := by
  constructor <;> intro h <;> simp [SetUserAgent, h]

/-- Claim C9 witness: the default at the empty string and pass-through at a
concrete non-empty user agent. -/
theorem setUserAgent_spec_witness :
    SetUserAgent "" = "gocommerce/default-client" ∧
    SetUserAgent "custom-agent" = "custom-agent" :=
  ⟨(setUserAgent_spec "").1 rfl, (setUserAgent_spec "custom-agent").2 (by decide)⟩

/-- Claim C10: `ParseErrorResponse` returns a non-nil error value for every
endpoint name, URL, body (through every possible decode outcome, including an
all-empty decoded shape) and status code; `none` models a nil Go error and is
never produced. -/
theorem parseErrorResponse_never_nil (unmarshal : String → Option APIError)
    (endpoint url body : String) (statusCode : Int) :
    (ParseErrorResponse unmarshal endpoint url body statusCode).isSome := by
  unfold ParseErrorResponse
  cases unmarshal body <;> simp

/-- Claim C6: `BuildBaseURL` yields exactly `{override}/{version}/{path}`
under a non-empty base-URL override and exactly
`https://api.squarespace.com/{version}/{path}` otherwise, always with a nil
error; empty segments keep their adjacent slashes by construction of the
concatenation. -/
theorem buildBaseURL_spec (config : Config) (version path : String) :
    (config.BaseURL ≠ "" →
      BuildBaseURL config version path =
        (config.BaseURL ++ "/" ++ version ++ "/" ++ path, none)) ∧
    (config.BaseURL = "" →
      BuildBaseURL config version path =
        ("https://api.squarespace.com/" ++ version ++ "/" ++ path, none)) := by
  constructor <;> intro h
  · have hs : runFormat "%s/%s/%s" [.str config.BaseURL, .str version, .str path] =
        config.BaseURL ++ "/" ++ version ++ "/" ++ path := by
      apply string_eq_of_data
      simp [runFormat, runFormatAux, data_append, List.append_assoc]
    simp [BuildBaseURL, h, hs]
  · have hs : runFormat "https://api.squarespace.com/%s/%s" [.str version, .str path] =
        "https://api.squarespace.com/" ++ version ++ "/" ++ path := by
      apply string_eq_of_data
      simp [runFormat, runFormatAux, data_append, List.append_assoc]
    simp [BuildBaseURL, h, hs]

/-- Claim C6 witness: the override case at version "1.0" and path
"commerce/inventory", and the no-override case at an empty version showing
the preserved double slash. -/
theorem buildBaseURL_spec_witness :
    BuildBaseURL ⟨"test-key", "test-agent", none, "http://localhost:8080"⟩ "1.0" "commerce/inventory" =
      ("http://localhost:8080/1.0/commerce/inventory", none) ∧
    BuildBaseURL ⟨"test-key", "test-agent", none, ""⟩ "" "commerce/inventory" =
      ("https://api.squarespace.com//commerce/inventory", none) := by
  constructor
  · rw [(buildBaseURL_spec ⟨"test-key", "test-agent", none, "http://localhost:8080"⟩ "1.0" "commerce/inventory").1 (by decide)]
    decide
  · rw [(buildBaseURL_spec ⟨"test-key", "test-agent", none, ""⟩ "" "commerce/inventory").2 rfl]
    decide

/-- Claim C8: the mutating inventory/order operations attach the
`Idempotency-Key` header exactly when the session configuration carries an
idempotency key, with the key's string form as the value. -/
theorem idempotencyKey_header_iff (config : Config) (reqBody v : String) :
    (("Idempotency-Key", v) ∈ (AdjustStockQuantitiesHttpRequest config reqBody).headers ↔
      config.IdempotencyKey = some v) ∧
    (("Idempotency-Key", v) ∈ (CreateOrderHttpRequest config reqBody).headers ↔
      config.IdempotencyKey = some v) := by
  constructor <;> cases h : config.IdempotencyKey <;>
    simp +decide [AdjustStockQuantitiesHttpRequest, CreateOrderHttpRequest, h, eq_comm]

/-- Claim C2 (code bug): with a nil `AfterImageID`, `json.Marshal` of
`ReorderProductImageRequest` under its `omitempty` tag produces an empty
object — the `afterImageId` field is omitted, not serialized as an explicit
null — diverging from the spec and from the repository's own test, which
expects the body `\x7b"afterImageId":null\x7d`. -/
theorem reorderProductImageRequest_marshal_nil :
    reorderProductImageRequestJSON ⟨"product-123", "image-456", none⟩ = "\x7b\x7d" ∧
    reorderProductImageRequestJSON ⟨"product-123", "image-456", none⟩ ≠
      "\x7b\"afterImageId\":null\x7d" ∧
    reorderProductImageRequestJSON ⟨"product-123", "image-456", some "image-789"⟩ =
      "\x7b\"afterImageId\":\"image-789\"\x7d" := by
  refine ⟨rfl, by decide, by decide⟩

/-- Claim C7: an empty or more-than-50-element ID list makes
`RetrieveSpecificProducts` and `RetrieveSpecificInventory` return an error
whose value is independent of the injected transport — the failure is decided
locally, before any network call. -/
theorem retrieveSpecific_local_precondition (ids : List String)
    (h : ids = [] ∨ ids.length > 50) :
    (∀ transport unmarshal config,
      RetrieveSpecificProducts transport unmarshal config ids =
        (none, some (if ids.length = 0 then "at least one product ID is required"
          else "cannot retrieve more than 50 products at once"))) ∧
    (∀ transport unmarshal config,
      RetrieveSpecificInventory transport unmarshal config ids =
        (none, some (if ids.length = 0 then "no inventory IDs provided"
          else "cannot retrieve more than 50 inventory IDs"))) := by
  rcases h with h | h
  · subst h
    exact ⟨fun _ _ _ => by simp [RetrieveSpecificProducts],
           fun _ _ _ => by simp [RetrieveSpecificInventory]⟩
  · have h0 : ¬ids.length = 0 := by omega
    exact ⟨fun _ _ _ => by simp [RetrieveSpecificProducts, h0, h],
           fun _ _ _ => by simp [RetrieveSpecificInventory, h0, h]⟩

/-- Claim C7 witness: a 51-element ID list is rejected with the over-cap
message by both operations, for an arbitrary concrete transport. -/
theorem retrieveSpecific_local_precondition_witness :
    RetrieveSpecificProducts (fun _ => ⟨200, ""⟩) (fun _ => none) ⟨"", "", none, ""⟩
        (List.replicate 51 "x") =
      (none, some "cannot retrieve more than 50 products at once") ∧
    RetrieveSpecificInventory (fun _ => ⟨200, ""⟩) (fun _ => none) ⟨"", "", none, ""⟩
        (List.replicate 51 "x") =
      (none, some "cannot retrieve more than 50 inventory IDs") := by
  have h := retrieveSpecific_local_precondition (List.replicate 51 "x") (Or.inr (by decide))
  constructor
  · rw [h.1 (fun _ => ⟨200, ""⟩) (fun _ => none) ⟨"", "", none, ""⟩]
    simp
  · rw [h.2 (fun _ => ⟨200, ""⟩) (fun _ => none) ⟨"", "", none, ""⟩]
    simp

/-- Claim C1 counterexample: a parameter set with a non-empty cursor and a
non-empty type filter — another non-empty field of the set — passes
validation, because the cursor-exclusivity check tests only the six fields
filter, modifiedAfter, modifiedBefore, sortDirection, sortField and status,
not the type filter. -/
theorem validateQueryParams_cursor_type_counterexample :
    (⟨"abc123", "", "", "", "", "", "", "PHYSICAL"⟩ : QueryParams).Cursor ≠ "" ∧
    (⟨"abc123", "", "", "", "", "", "", "PHYSICAL"⟩ : QueryParams).Type_ ≠ "" ∧
    ValidateQueryParams ⟨"abc123", "", "", "", "", "", "", "PHYSICAL"⟩ = none := by
  refine ⟨by decide, by decide, by decide⟩

/-- Claim C1 (amended): when the cursor is non-empty and any of the six
fields filter, modifiedAfter, modifiedBefore, sortDirection, sortField or
status is also non-empty, `ValidateQueryParams` returns the
cursor-exclusivity error with the message "cannot use cursor alongside other
query parameters". -/
theorem validateQueryParams_cursor_exclusivity (p : QueryParams)
    (hc : p.Cursor ≠ "")
    (h : p.Filter ≠ "" ∨ p.ModifiedAfter ≠ "" ∨ p.ModifiedBefore ≠ "" ∨
      p.SortDirection ≠ "" ∨ p.SortField ≠ "" ∨ p.Status ≠ "") :
    ValidateQueryParams p = some .cursorWithOthers ∧
    ValidationError.messageText .cursorWithOthers =
      "cannot use cursor alongside other query parameters" :=
  ⟨by simp [ValidateQueryParams, hc, h], rfl⟩

/-- Claim C1 witness: the cursor-exclusivity error at a concrete parameter
set with a cursor and a filter. -/
theorem validateQueryParams_cursor_exclusivity_witness :
    ValidateQueryParams ⟨"abc123", "some-filter", "", "", "", "", "", ""⟩ =
      some .cursorWithOthers ∧
    ValidationError.messageText .cursorWithOthers =
      "cannot use cursor alongside other query parameters" :=
  validateQueryParams_cursor_exclusivity ⟨"abc123", "some-filter", "", "", "", "", "", ""⟩
    (by decide) (Or.inl (by decide))

/-- Claim C4 counterexample: with a non-empty cursor, a parameter set in
which exactly one of modifiedAfter/modifiedBefore is non-empty fails with the
cursor-exclusivity error, not the pairing error — the pairing rule only runs
when the cursor is empty. -/
theorem validateQueryParams_pairing_counterexample :
    ValidateQueryParams ⟨"abc123", "", "2024-01-01T00:00:00Z", "", "", "", "", ""⟩ =
      some .cursorWithOthers ∧
    ValidationError.cursorWithOthers ≠ ValidationError.modifiedPairing := by
  refine ⟨by decide, by decide⟩

/-- Claim C4 (amended): for parameter sets with an empty cursor, if exactly
one of modifiedAfter/modifiedBefore is non-empty validation fails with the
pairing error; when both are non-empty and both parse under the RFC 3339
profile, the timestamp checks pass (any remaining failure can only come from
the type filter); when both are non-empty and modifiedAfter does not parse,
validation fails naming modifiedAfter; when both are non-empty, modifiedAfter
parses and modifiedBefore does not, validation fails naming modifiedBefore. -/
theorem validateQueryParams_modified_rules (p : QueryParams) (hc : p.Cursor = "") :
    ((p.ModifiedAfter ≠ "" ∧ p.ModifiedBefore = "") ∨
        (p.ModifiedAfter = "" ∧ p.ModifiedBefore ≠ "") →
      ValidateQueryParams p = some .modifiedPairing) ∧
    (p.ModifiedAfter ≠ "" → p.ModifiedBefore ≠ "" →
      rfc3339Valid p.ModifiedAfter = true → rfc3339Valid p.ModifiedBefore = true →
      ValidateQueryParams p = none ∨ ∃ e, ValidateQueryParams p = some (.invalidType e)) ∧
    (p.ModifiedAfter ≠ "" → p.ModifiedBefore ≠ "" →
      rfc3339Valid p.ModifiedAfter = false →
      ValidateQueryParams p = some .modifiedAfterInvalid) ∧
    (p.ModifiedAfter ≠ "" → p.ModifiedBefore ≠ "" →
      rfc3339Valid p.ModifiedAfter = true → rfc3339Valid p.ModifiedBefore = false →
      ValidateQueryParams p = some .modifiedBeforeInvalid) := by
  refine ⟨fun h => by simp [ValidateQueryParams, hc, h], fun h1 h2 h3 h4 => ?_,
    fun h1 h2 h3 => by simp [ValidateQueryParams, hc, h1, h2, h3],
    fun h1 h2 h3 h4 => by simp [ValidateQueryParams, hc, h1, h2, h3, h4]⟩
  by_cases ht : p.Type_ = ""
  · exact Or.inl (by simp [ValidateQueryParams, hc, h1, h2, h3, h4, ht])
  · cases hv : validateTypeParam p.Type_ with
    | none => exact Or.inl (by simp [ValidateQueryParams, hc, h1, h2, h3, h4, ht, hv])
    | some e =>
        exact Or.inr ⟨e, by simp [ValidateQueryParams, hc, h1, h2, h3, h4, ht, hv]⟩

/-- Claim C4 witness: the pairing error when only modifiedAfter is set, the
timestamp checks passing at two valid UTC timestamps, the modifiedAfter
failure at a non-parsing string, and the modifiedBefore failure at a
non-parsing string. -/
theorem validateQueryParams_modified_rules_witness :
    ValidateQueryParams ⟨"", "", "2024-01-01T00:00:00Z", "", "", "", "", ""⟩ =
      some .modifiedPairing ∧
    (ValidateQueryParams ⟨"", "", "2024-01-01T00:00:00Z", "2024-06-30T23:59:59Z", "", "", "", ""⟩ = none ∨
      ∃ e, ValidateQueryParams ⟨"", "", "2024-01-01T00:00:00Z", "2024-06-30T23:59:59Z", "", "", "", ""⟩ =
        some (.invalidType e)) ∧
    ValidateQueryParams ⟨"", "", "invalid-date", "2024-01-01T00:00:00Z", "", "", "", ""⟩ =
      some .modifiedAfterInvalid ∧
    ValidateQueryParams ⟨"", "", "2024-01-01T00:00:00Z", "invalid-date", "", "", "", ""⟩ =
      some .modifiedBeforeInvalid := by
  refine ⟨(validateQueryParams_modified_rules _ rfl).1 (Or.inl ⟨by decide, rfl⟩),
    (validateQueryParams_modified_rules _ rfl).2.1 (by decide) (by decide) (by decide) (by decide),
    (validateQueryParams_modified_rules _ rfl).2.2.1 (by decide) (by decide) (by decide),
    (validateQueryParams_modified_rules _ rfl).2.2.2 (by decide) (by decide) (by decide) (by decide)⟩

/-- Claim C5: `validateTypeParam` passes exactly when every comma-separated,
whitespace-trimmed entry is one of the two enumerated values and no two
entries are equal after trimming; it passes on "PHYSICAL", "DIGITAL" and
"PHYSICAL,DIGITAL", fails naming the invalid value on "INVALID", and fails
identifying the duplicate on "PHYSICAL,PHYSICAL". -/
theorem validateTypeParam_spec :
    (∀ productType : String,
      validateTypeParam productType = none ↔
        (∀ t ∈ stringsSplit productType ',',
          trimSpace t = ProductTypePhysical ∨ trimSpace t = ProductTypeDigital) ∧
        ((stringsSplit productType ',').map (fun t => trimSpace t)).Nodup) ∧
    validateTypeParam "PHYSICAL" = none ∧
    validateTypeParam "DIGITAL" = none ∧
    validateTypeParam "PHYSICAL,DIGITAL" = none ∧
    validateTypeParam "INVALID" = some (.invalidValue "INVALID") ∧
    validateTypeParam "PHYSICAL,PHYSICAL" = some (.duplicate "PHYSICAL,PHYSICAL") := by
  refine ⟨fun productType => ?_, by decide, by decide, by decide, by decide, by decide⟩
  unfold validateTypeParam
  cases hf : (stringsSplit productType ',').find?
      (fun t => trimSpace t != ProductTypePhysical && trimSpace t != ProductTypeDigital) with
  | some t =>
      simp only [hf]
      constructor
      · intro h; exact absurd h (by simp)
      · rintro ⟨hall, -⟩
        have hmem := List.mem_of_find?_eq_some hf
        have hpred := List.find?_some hf
        rcases hall t hmem with h | h <;> simp [h] at hpred
  | none =>
      have hall := List.find?_eq_none.mp hf
      simp only [hf]
      by_cases hd :
          (((stringsSplit productType ',').map (fun t => trimSpace t)).dedup).length ≠
            (stringsSplit productType ',').length
      · rw [if_pos hd]
        constructor
        · intro h; exact absurd h (by simp)
        · rintro ⟨-, hnodup⟩
          exfalso
          apply hd
          rw [List.dedup_eq_self.mpr hnodup, List.length_map]
      · rw [if_neg hd]
        refine iff_of_true rfl ⟨?_, ?_⟩
        · intro t hmem
          have hnp := hall t hmem
          by_cases hP : trimSpace t = ProductTypePhysical
          · exact Or.inl hP
          · refine Or.inr ?_
            simp only [bne_iff_ne, Bool.and_eq_true, decide_eq_true_eq, ne_eq,
              not_and, Decidable.not_not] at hnp
            exact hnp hP
        · have hlen : (((stringsSplit productType ',').map (fun t => trimSpace t)).dedup).length =
              (((stringsSplit productType ',').map (fun t => trimSpace t))).length := by
            rw [List.length_map]
            exact Decidable.not_not.mp hd
          have hde := List.Sublist.eq_of_length (List.dedup_sublist _) hlen
          rw [← hde]
          exact List.nodup_dedup _

theorem runFormat_unmarshal_fail (e : String) (sc : Int) :
    runFormat "%s: error unmarshalling response body: status: %d" [.str e, .int sc] =
      e ++ ": error unmarshalling response body: status: " ++ toString sc := by
  apply string_eq_of_data
  simp [runFormat, runFormatAux, data_append, List.append_assoc]

theorem runFormat_msg_base (e u t m : String) (sc : Int) :
    runFormat "%s url: %s: status: %d, type: %s, message: %s"
        [.str e, .str u, .int sc, .str t, .str m] =
      e ++ " url: " ++ u ++ ": status: " ++ toString sc ++ ", type: " ++ t ++
        ", message: " ++ m := by
  apply string_eq_of_data
  simp [runFormat, runFormatAux, data_append, List.append_assoc]

theorem runFormat_msg_subtype (e u t s m : String) (sc : Int) :
    runFormat "%s url: %s: status: %d, type: %s, subtype: %s, message: %s"
        [.str e, .str u, .int sc, .str t, .str s, .str m] =
      e ++ " url: " ++ u ++ ": status: " ++ toString sc ++ ", type: " ++ t ++
        ", subtype: " ++ s ++ ", message: " ++ m := by
  apply string_eq_of_data
  simp [runFormat, runFormatAux, data_append, List.append_assoc]

theorem runFormat_msg_detail (e u t m d : String) (sc : Int) :
    runFormat "%s url: %s: status: %d, type: %s, message: %s, detail: %s"
        [.str e, .str u, .int sc, .str t, .str m, .str d] =
      e ++ " url: " ++ u ++ ": status: " ++ toString sc ++ ", type: " ++ t ++
        ", message: " ++ m ++ ", detail: " ++ d := by
  apply string_eq_of_data
  simp [runFormat, runFormatAux, data_append, List.append_assoc]

theorem runFormat_msg_both (e u t s m d : String) (sc : Int) :
    runFormat "%s url: %s: status: %d, type: %s, subtype: %s, message: %s, detail: %s"
        [.str e, .str u, .int sc, .str t, .str s, .str m, .str d] =
      e ++ " url: " ++ u ++ ": status: " ++ toString sc ++ ", type: " ++ t ++
        ", subtype: " ++ s ++ ", message: " ++ m ++ ", detail: " ++ d := by
  apply string_eq_of_data
  simp [runFormat, runFormatAux, data_append, List.append_assoc]

/-- Claim C3: when the body does not decode as the API-error shape,
`ParseErrorResponse` produces a message built from the endpoint name and
status code alone — the request URL and the raw body do not occur in it — and
when the body decodes, the message is exactly the concatenation, in fixed
order, of endpoint name, request URL, status code, error type, the subtype
label+value pair (present only when the subtype is non-empty), the message,
and the detail label+value pair (present only when the detail is
non-empty). -/
theorem parseErrorResponse_message_spec (unmarshal : String → Option APIError)
    (endpoint url body : String) (statusCode : Int) :
    (unmarshal body = none →
      ParseErrorResponse unmarshal endpoint url body statusCode =
        some (endpoint ++ ": error unmarshalling response body: status: " ++
          toString statusCode)) ∧
    (∀ e, unmarshal body = some e →
      ParseErrorResponse unmarshal endpoint url body statusCode =
        some (endpoint ++ " url: " ++ url ++ ": status: " ++ toString statusCode ++
          ", type: " ++ e.type_ ++
          (if e.subtype = "" then "" else ", subtype: " ++ e.subtype) ++
          ", message: " ++ e.message ++
          (if e.detail = "" then "" else ", detail: " ++ e.detail))) := by
  constructor
  · intro h
    simp [ParseErrorResponse, h, runFormat_unmarshal_fail]
  · intro e h
    by_cases hs : e.subtype = "" <;> by_cases hd : e.detail = "" <;>
      simp [ParseErrorResponse, h, hs, hd, runFormat_msg_base, runFormat_msg_subtype,
        runFormat_msg_detail, runFormat_msg_both, string_append_assoc, string_append_empty]

/-- Claim C3 witness: the decode-failure message at status 400 with an
undecodable body, and the decoded message for the spec's example body with
type and message only. -/
theorem parseErrorResponse_message_spec_witness :
    ParseErrorResponse (fun _ => none) "TestEndpoint" "http://example.com/api"
        "invalid json" 400 =
      some "TestEndpoint: error unmarshalling response body: status: 400" ∧
    ParseErrorResponse (fun _ => some ⟨"ERROR_TYPE", "", "Error occurred", ""⟩)
        "TestEndpoint" "http://example.com/api"
        "\x7b\"type\":\"ERROR_TYPE\",\"message\":\"Error occurred\"\x7d" 400 =
      some "TestEndpoint url: http://example.com/api: status: 400, type: ERROR_TYPE, message: Error occurred" := by
  constructor
  · rw [(parseErrorResponse_message_spec (fun _ => none) "TestEndpoint"
      "http://example.com/api" "invalid json" 400).1 rfl]
    decide
  · rw [(parseErrorResponse_message_spec (fun _ => some ⟨"ERROR_TYPE", "", "Error occurred", ""⟩)
      "TestEndpoint" "http://example.com/api"
      "\x7b\"type\":\"ERROR_TYPE\",\"message\":\"Error occurred\"\x7d" 400).2
      ⟨"ERROR_TYPE", "", "Error occurred", ""⟩ rfl]
    decide
